import Mathlib

/-!
Shallow embedding of `src/utils/elasticity.ts` (price-elasticity estimation
and price optimization for an e-commerce dashboard).

Modelling conventions:
* JavaScript numbers supplied by the caller (prices, quantities) are finite
  IEEE doubles, hence rational; observation fields are modelled as `ℚ`.
  All arithmetic performed by the routine is modelled exactly over `ℝ`
  (`Math.log` is `Real.log`, `Math.pow` with a real exponent is `Real.rpow`,
  `Math.pow(x, 2)` is `x ^ 2`).
* `new Date(p.sale_date).getTime()` is modelled by storing the parsed
  timestamp directly as `sale_date : ℤ`.
* `Array.prototype.sort` with comparator `(a, b) => aTime - bTime` is a
  stable ascending in-place sort; `sortByDate` below is a stable insertion
  sort.  Because the sort mutates the caller's array, the embedding of
  `calculateElasticity` returns the pair (result, final contents of the
  caller's array).
* For a finite JavaScript number `x`, `isFinite(Math.log(x))` holds iff
  `0 < x` (`Math.log` returns `-Infinity` at `0` and `NaN` on negatives),
  so the finite-log filter is embedded as positivity of the rational
  price and quantity carried alongside the logs.
-/

structure SalesDataPoint where
  price : ℚ
  quantity_sold : ℚ
  product_name : String
  category : String
  sale_date : ℤ
  deriving DecidableEq, Inhabited, Repr

structure ElasticityResult where
  elasticity : ℝ
  r_squared : ℝ
  is_elastic : Bool
  product_name : String
  category : String
  current_price : ℝ
  recommended_price : ℝ
  expected_revenue_change : ℝ

/-- Intermediate record built by the `map` in `calculateElasticity`:
`{ logPrice: Math.log(point.price), logQuantity: Math.log(point.quantity_sold),
   price: point.price, quantity: point.quantity_sold }`. -/
structure LogPoint where
  logPrice : ℝ
  logQuantity : ℝ
  price : ℚ
  quantity : ℚ

/-- Stable insertion of `x` into a date-sorted list: `x` is placed before the
first element whose date is not strictly earlier, which matches the result of
the stable ascending sort used by `Array.prototype.sort` with comparator
`(a, b) => aTime - bTime`. -/
def insertByDate (x : SalesDataPoint) : List SalesDataPoint → List SalesDataPoint
  | [] => [x]
  | y :: ys => if y.sale_date < x.sale_date then y :: insertByDate x ys else x :: y :: ys

/-- Stable ascending sort by `sale_date`, the extensional behavior of
`dataPoints.sort((a, b) => new Date(a.sale_date).getTime() - new Date(b.sale_date).getTime())`. -/
def sortByDate : List SalesDataPoint → List SalesDataPoint
  | [] => []
  | x :: xs => insertByDate x (sortByDate xs)

/-- Source: `const sortedData = dataPoints.sort(...)`. -/
def sortedData (dataPoints : List SalesDataPoint) : List SalesDataPoint :=
  sortByDate dataPoints

/-- Source: `const logPoints = sortedData.map(point => ({...})).filter(point =>
isFinite(point.logPrice) && isFinite(point.logQuantity))`; the finiteness of
the logarithm of a finite number is positivity of that number. -/
noncomputable def logPoints (dataPoints : List SalesDataPoint) : List LogPoint :=
  ((sortedData dataPoints).map (fun point =>
    { logPrice := Real.log (point.price : ℝ)
      logQuantity := Real.log (point.quantity_sold : ℝ)
      price := point.price
      quantity := point.quantity_sold : LogPoint })).filter
    (fun point => decide (0 < point.price ∧ 0 < point.quantity))

/-- Source: `const meanLogPrice = logPoints.reduce((sum, p) => sum + p.logPrice, 0) / n`. -/
noncomputable def meanLogPrice (dataPoints : List SalesDataPoint) : ℝ :=
  ((logPoints dataPoints).foldl (fun sum p => sum + p.logPrice) 0) /
    ((logPoints dataPoints).length : ℝ)

/-- Source: `const meanLogQuantity = logPoints.reduce((sum, p) => sum + p.logQuantity, 0) / n`. -/
noncomputable def meanLogQuantity (dataPoints : List SalesDataPoint) : ℝ :=
  ((logPoints dataPoints).foldl (fun sum p => sum + p.logQuantity) 0) /
    ((logPoints dataPoints).length : ℝ)

/-- Accumulation of `numerator += priceDeviation * quantityDeviation` over the
`for (const point of logPoints)` loop, starting from `let numerator = 0`. -/
noncomputable def numerator (dataPoints : List SalesDataPoint) : ℝ :=
  (logPoints dataPoints).foldl
    (fun sum point =>
      sum + (point.logPrice - meanLogPrice dataPoints) *
            (point.logQuantity - meanLogQuantity dataPoints)) 0

/-- Accumulation of `denominator += priceDeviation * priceDeviation` over the
same loop, starting from `let denominator = 0`. -/
noncomputable def denominator (dataPoints : List SalesDataPoint) : ℝ :=
  (logPoints dataPoints).foldl
    (fun sum point =>
      sum + (point.logPrice - meanLogPrice dataPoints) *
            (point.logPrice - meanLogPrice dataPoints)) 0

/-- Source: `const elasticity = numerator / denominator`. -/
noncomputable def elasticity (dataPoints : List SalesDataPoint) : ℝ :=
  numerator dataPoints / denominator dataPoints

/-- Source: `const predicted = logPoints.map(point => meanLogQuantity + elasticity * (point.logPrice - meanLogPrice))`. -/
noncomputable def predicted (dataPoints : List SalesDataPoint) : List ℝ :=
  (logPoints dataPoints).map
    (fun point => meanLogQuantity dataPoints +
      elasticity dataPoints * (point.logPrice - meanLogPrice dataPoints))

/-- Source: `const totalSumSquares = logPoints.reduce((sum, point) => sum + Math.pow(point.logQuantity - meanLogQuantity, 2), 0)`. -/
noncomputable def totalSumSquares (dataPoints : List SalesDataPoint) : ℝ :=
  (logPoints dataPoints).foldl
    (fun sum point => sum + (point.logQuantity - meanLogQuantity dataPoints) ^ 2) 0

/-- Source: `const residualSumSquares = logPoints.reduce((sum, point, i) => sum + Math.pow(point.logQuantity - predicted[i], 2), 0)`;
the positional pairing of `point` with `predicted[i]` is the zip of the two
lists (they have the same length). -/
noncomputable def residualSumSquares (dataPoints : List SalesDataPoint) : ℝ :=
  ((logPoints dataPoints).zip (predicted dataPoints)).foldl
    (fun sum pp => sum + (pp.1.logQuantity - pp.2) ^ 2) 0

/-- Source: `const r_squared = totalSumSquares > 0 ? 1 - (residualSumSquares / totalSumSquares) : 0`. -/
noncomputable def rSquared (dataPoints : List SalesDataPoint) : ℝ :=
  if 0 < totalSumSquares dataPoints then
    1 - residualSumSquares dataPoints / totalSumSquares dataPoints
  else 0

/-- Source: `const is_elastic = Math.abs(elasticity) > 1`. -/
noncomputable def isElastic (dataPoints : List SalesDataPoint) : Bool :=
  decide (1 < |elasticity dataPoints|)

/-- Source: `const current_price = sortedData[sortedData.length - 1].price`
(only evaluated when the list is nonempty). -/
def currentPrice (dataPoints : List SalesDataPoint) : ℚ :=
  ((sortedData dataPoints).getLastD default).price

/-- Source: `const current_quantity = sortedData[sortedData.length - 1].quantity_sold`. -/
def currentQuantity (dataPoints : List SalesDataPoint) : ℚ :=
  ((sortedData dataPoints).getLastD default).quantity_sold

/-- Source: `recommended_price = current_price * 0.9` in the elastic branch and
`current_price * 1.1` in the inelastic branch. -/
noncomputable def recommendedPrice (dataPoints : List SalesDataPoint) : ℝ :=
  if isElastic dataPoints then (currentPrice dataPoints : ℝ) * 0.9
  else (currentPrice dataPoints : ℝ) * 1.1

/-- Source (both branches): `const predicted_quantity = current_quantity * Math.pow(recommended_price / current_price, elasticity)`. -/
noncomputable def predictedQuantity (dataPoints : List SalesDataPoint) : ℝ :=
  (currentQuantity dataPoints : ℝ) *
    (recommendedPrice dataPoints / (currentPrice dataPoints : ℝ)) ^ elasticity dataPoints

/-- Source (both branches): `const current_revenue = current_price * current_quantity`. -/
noncomputable def currentRevenue (dataPoints : List SalesDataPoint) : ℝ :=
  (currentPrice dataPoints : ℝ) * (currentQuantity dataPoints : ℝ)

/-- Source (both branches): `const predicted_revenue = recommended_price * predicted_quantity`. -/
noncomputable def predictedRevenue (dataPoints : List SalesDataPoint) : ℝ :=
  recommendedPrice dataPoints * predictedQuantity dataPoints

/-- Source (both branches): `expected_revenue_change = ((predicted_revenue - current_revenue) / current_revenue) * 100`. -/
noncomputable def expectedRevenueChange (dataPoints : List SalesDataPoint) : ℝ :=
  (predictedRevenue dataPoints - currentRevenue dataPoints) / currentRevenue dataPoints * 100

/-- The record built by the final `return` statement.  At that point
`dataPoints` has been sorted in place (it aliases `sortedData`), so
`dataPoints[0]` is the head of the date-sorted list. -/
noncomputable def resultOf (dataPoints : List SalesDataPoint) : ElasticityResult :=
  { elasticity := elasticity dataPoints
    r_squared := rSquared dataPoints
    is_elastic := isElastic dataPoints
    product_name := ((sortedData dataPoints).headI).product_name
    category := ((sortedData dataPoints).headI).category
    current_price := (currentPrice dataPoints : ℝ)
    recommended_price := recommendedPrice dataPoints
    expected_revenue_change := expectedRevenueChange dataPoints }

/-- Embedding of `calculateElasticity` as a state-passing function: the first
component is the returned value (`null` is `none`), the second component is
the contents of the caller's array after the call (the in-place sort at the
top of the function body has already mutated it on every path that reaches
the sort). -/
noncomputable def calculateElasticityRun (dataPoints : List SalesDataPoint) :
    Option ElasticityResult × List SalesDataPoint :=
  if dataPoints.length < 2 then (none, dataPoints)
  else if (logPoints dataPoints).length < 2 then (none, sortedData dataPoints)
  else if denominator dataPoints = 0 then (none, sortedData dataPoints)
  else (some (resultOf dataPoints), sortedData dataPoints)

/-- The value returned by `calculateElasticity`. -/
noncomputable def calculateElasticity (dataPoints : List SalesDataPoint) :
    Option ElasticityResult :=
  (calculateElasticityRun dataPoints).1

/-- The contents of the caller's array after `calculateElasticity` returns. -/
noncomputable def calculateElasticityArrayAfter (dataPoints : List SalesDataPoint) :
    List SalesDataPoint :=
  (calculateElasticityRun dataPoints).2

inductive OptimizationTarget where
  | revenue
  | profit
  deriving DecidableEq, Repr

structure OptimizationResult where
  optimal_price : ℝ
  expected_change : ℝ

/-- Embedding of `optimizePrice`.  The TypeScript defaults
(`costPerUnit = 0`, `optimizationTarget = 'revenue'`) are always passed
explicitly here. -/
noncomputable def optimizePrice (elasticity currentPrice currentQuantity costPerUnit : ℝ)
    (optimizationTarget : OptimizationTarget) : OptimizationResult :=
  if optimizationTarget = OptimizationTarget.revenue then
    if 1 < |elasticity| then
      let optimal_price := currentPrice * 0.85
      let predicted_quantity := currentQuantity * (optimal_price / currentPrice) ^ elasticity
      let current_revenue := currentPrice * currentQuantity
      let predicted_revenue := optimal_price * predicted_quantity
      { optimal_price := optimal_price
        expected_change := (predicted_revenue - current_revenue) / current_revenue * 100 }
    else
      let optimal_price := currentPrice * 1.15
      let predicted_quantity := currentQuantity * (optimal_price / currentPrice) ^ elasticity
      let current_revenue := currentPrice * currentQuantity
      let predicted_revenue := optimal_price * predicted_quantity
      { optimal_price := optimal_price
        expected_change := (predicted_revenue - current_revenue) / current_revenue * 100 }
  else
    let optimal_price := currentPrice * (if 1 < |elasticity| then 0.9 else 1.2)
    let predicted_quantity := currentQuantity * (optimal_price / currentPrice) ^ elasticity
    let current_profit := (currentPrice - costPerUnit) * currentQuantity
    let predicted_profit := (optimal_price - costPerUnit) * predicted_quantity
    { optimal_price := optimal_price
      expected_change :=
        if 0 < current_profit then (predicted_profit - current_profit) / current_profit * 100
        else 0 }

/-- Arithmetic mean of the logarithms of the filtered prices, written the way
the specification describes it (a sum over the filtered set divided by its
size); used to compare the code's fold-based computation against the
specification's formula. -/
noncomputable def specMeanLogPrice (dataPoints : List SalesDataPoint) : ℝ :=
  ((logPoints dataPoints).map (fun p => p.logPrice)).sum / ((logPoints dataPoints).length : ℝ)

/-- Arithmetic mean of the logarithms of the filtered quantities, written the
way the specification describes it. -/
noncomputable def specMeanLogQuantity (dataPoints : List SalesDataPoint) : ℝ :=
  ((logPoints dataPoints).map (fun p => p.logQuantity)).sum / ((logPoints dataPoints).length : ℝ)

/-- OLS numerator written as the specification's sum. -/
noncomputable def specNumerator (dataPoints : List SalesDataPoint) : ℝ :=
  ((logPoints dataPoints).map (fun p =>
    (p.logPrice - specMeanLogPrice dataPoints) *
    (p.logQuantity - specMeanLogQuantity dataPoints))).sum

/-- OLS denominator written as the specification's sum of squares. -/
noncomputable def specDenominator (dataPoints : List SalesDataPoint) : ℝ :=
  ((logPoints dataPoints).map (fun p => (p.logPrice - specMeanLogPrice dataPoints) ^ 2)).sum

/-! ### Fold/sum conversions and basic structure lemmas -/

theorem foldl_add_eq_sum {α : Type} (f : α → ℝ) :
    ∀ (l : List α) (a : ℝ), List.foldl (fun s p => s + f p) a l = a + (l.map f).sum := by
  intro l
  induction l with
  | nil => intro a; simp
  | cons x xs ih =>
    intro a
    simp only [List.foldl_cons, List.map_cons, List.sum_cons, ih]
    ring

theorem meanLogPrice_eq_spec (l : List SalesDataPoint) :
    meanLogPrice l = specMeanLogPrice l := by
  unfold meanLogPrice specMeanLogPrice
  rw [foldl_add_eq_sum, zero_add]

theorem meanLogQuantity_eq_spec (l : List SalesDataPoint) :
    meanLogQuantity l = specMeanLogQuantity l := by
  unfold meanLogQuantity specMeanLogQuantity
  rw [foldl_add_eq_sum, zero_add]

theorem numerator_eq_sum (l : List SalesDataPoint) :
    numerator l = ((logPoints l).map (fun p =>
      (p.logPrice - meanLogPrice l) * (p.logQuantity - meanLogQuantity l))).sum := by
  unfold numerator
  rw [foldl_add_eq_sum, zero_add]

theorem denominator_eq_sum (l : List SalesDataPoint) :
    denominator l = ((logPoints l).map (fun p => (p.logPrice - meanLogPrice l) ^ 2)).sum := by
  unfold denominator
  rw [foldl_add_eq_sum, zero_add]
  have hfun : (fun (p : LogPoint) => (p.logPrice - meanLogPrice l) * (p.logPrice - meanLogPrice l))
      = fun p => (p.logPrice - meanLogPrice l) ^ 2 := by
    funext p
    ring
  rw [hfun]

theorem numerator_eq_spec (l : List SalesDataPoint) : numerator l = specNumerator l := by
  rw [numerator_eq_sum]
  unfold specNumerator
  rw [meanLogPrice_eq_spec, meanLogQuantity_eq_spec]

theorem denominator_eq_spec (l : List SalesDataPoint) : denominator l = specDenominator l := by
  rw [denominator_eq_sum]
  unfold specDenominator
  rw [meanLogPrice_eq_spec]

theorem totalSumSquares_eq_sum (l : List SalesDataPoint) :
    totalSumSquares l = ((logPoints l).map (fun p =>
      (p.logQuantity - meanLogQuantity l) ^ 2)).sum := by
  unfold totalSumSquares
  rw [foldl_add_eq_sum, zero_add]

theorem residualSumSquares_eq_sum (l : List SalesDataPoint) :
    residualSumSquares l = ((logPoints l).map (fun p =>
      (p.logQuantity - (meanLogQuantity l +
        elasticity l * (p.logPrice - meanLogPrice l))) ^ 2)).sum := by
  have zip_self_map : ∀ {α β : Type} (f : α → β) (xs : List α),
      xs.zip (xs.map f) = xs.map (fun x => (x, f x)) := by
    intro α β f xs
    induction xs with
    | nil => rfl
    | cons x t ih => simp [ih]
  unfold residualSumSquares predicted
  rw [zip_self_map, foldl_add_eq_sum, zero_add, List.map_map]
  rfl

/-! ### Sorting lemmas -/

theorem insertByDate_perm (x : SalesDataPoint) (l : List SalesDataPoint) :
    (insertByDate x l).Perm (x :: l) := by
  induction l with
  | nil => simp [insertByDate]
  | cons y ys ih =>
    by_cases h : y.sale_date < x.sale_date
    · simp only [insertByDate, if_pos h]
      exact (ih.cons y).trans (List.Perm.swap x y ys)
    · simp [insertByDate, if_neg h]

theorem sortByDate_perm (l : List SalesDataPoint) : (sortByDate l).Perm l := by
  induction l with
  | nil => simp [sortByDate]
  | cons x xs ih =>
    exact (insertByDate_perm x (sortByDate xs)).trans (ih.cons x)

theorem sortedData_length (l : List SalesDataPoint) : (sortedData l).length = l.length :=
  (sortByDate_perm l).length_eq

theorem logPoints_length_le (l : List SalesDataPoint) : (logPoints l).length ≤ l.length := by
  unfold logPoints
  calc (((sortedData l).map _).filter _).length
      ≤ ((sortedData l).map _).length := List.length_filter_le _ _
    _ = l.length := by rw [List.length_map, sortedData_length]

theorem sortByDate_of_pairwise (l : List SalesDataPoint)
    (h : List.Pairwise (fun a b => a.sale_date ≤ b.sale_date) l) : sortByDate l = l := by
  induction l with
  | nil => rfl
  | cons x xs ih =>
    rw [List.pairwise_cons] at h
    have hxs := ih h.2
    simp only [sortByDate, hxs]
    cases xs with
    | nil => rfl
    | cons y ys =>
      have : ¬ y.sale_date < x.sale_date := not_lt.mpr (h.1 y (by simp))
      simp [insertByDate, this]

/-! ### Inversion lemmas for `calculateElasticity` -/

theorem calculateElasticityRun_of_nondegenerate (l : List SalesDataPoint)
    (h2 : 2 ≤ (logPoints l).length) (h3 : denominator l ≠ 0) :
    calculateElasticityRun l = (some (resultOf l), sortedData l) := by
  have h1 : 2 ≤ l.length := le_trans h2 (logPoints_length_le l)
  unfold calculateElasticityRun
  rw [if_neg (by omega), if_neg (by omega), if_neg h3]

theorem calculateElasticity_some_inv (l : List SalesDataPoint) (r : ElasticityResult)
    (h : calculateElasticity l = some r) :
    2 ≤ l.length ∧ 2 ≤ (logPoints l).length ∧ denominator l ≠ 0 ∧ r = resultOf l := by
  unfold calculateElasticity calculateElasticityRun at h
  by_cases a : l.length < 2
  · rw [if_pos a] at h
    exact absurd h (by simp)
  · rw [if_neg a] at h
    by_cases b : (logPoints l).length < 2
    · rw [if_pos b] at h
      exact absurd h (by simp)
    · rw [if_neg b] at h
      by_cases c : denominator l = 0
      · rw [if_pos c] at h
        exact absurd h (by simp)
      · rw [if_neg c] at h
        have hr : resultOf l = r := by simpa using h
        exact ⟨by omega, by omega, c, hr.symm⟩

theorem calculateElasticityArrayAfter_eq (l : List SalesDataPoint) :
    calculateElasticityArrayAfter l = if l.length < 2 then l else sortedData l := by
  unfold calculateElasticityArrayAfter calculateElasticityRun
  split_ifs <;> rfl

/-! ### OLS algebra -/

theorem sum_sq_affine (L : List LogPoint) (mp mq b : ℝ) :
    (L.map (fun p => (p.logQuantity - (mq + b * (p.logPrice - mp))) ^ 2)).sum
      = (L.map (fun p => (p.logQuantity - mq) ^ 2)).sum
        - 2 * b * (L.map (fun p => (p.logPrice - mp) * (p.logQuantity - mq))).sum
        + b ^ 2 * (L.map (fun p => (p.logPrice - mp) ^ 2)).sum := by
  induction L with
  | nil => simp
  | cons x xs ih =>
    simp only [List.map_cons, List.sum_cons]
    rw [ih]
    ring

theorem residual_identity (l : List SalesDataPoint) (hden : denominator l ≠ 0) :
    residualSumSquares l = totalSumSquares l - numerator l ^ 2 / denominator l := by
  rw [residualSumSquares_eq_sum, sum_sq_affine, ← totalSumSquares_eq_sum,
    ← numerator_eq_sum, ← denominator_eq_sum]
  unfold elasticity
  field_simp
  ring

theorem denominator_nonneg (l : List SalesDataPoint) : 0 ≤ denominator l := by
  rw [denominator_eq_sum]
  apply List.sum_nonneg
  intro x hx
  simp only [List.mem_map] at hx
  obtain ⟨p, -, rfl⟩ := hx
  positivity

theorem residualSumSquares_nonneg (l : List SalesDataPoint) : 0 ≤ residualSumSquares l := by
  rw [residualSumSquares_eq_sum]
  apply List.sum_nonneg
  intro x hx
  simp only [List.mem_map] at hx
  obtain ⟨p, -, rfl⟩ := hx
  positivity

theorem rSquared_mem_unit (l : List SalesDataPoint) (hden : denominator l ≠ 0) :
    0 ≤ rSquared l ∧ rSquared l ≤ 1 := by
  unfold rSquared
  by_cases ht : 0 < totalSumSquares l
  · rw [if_pos ht]
    have hres0 : 0 ≤ residualSumSquares l := residualSumSquares_nonneg l
    have hdpos : 0 < denominator l := lt_of_le_of_ne (denominator_nonneg l) (Ne.symm hden)
    have hle : residualSumSquares l ≤ totalSumSquares l := by
      rw [residual_identity l hden]
      have hq : 0 ≤ numerator l ^ 2 / denominator l := div_nonneg (sq_nonneg _) hdpos.le
      linarith
    constructor
    · have hd1 : residualSumSquares l / totalSumSquares l ≤ 1 := (div_le_one ht).mpr hle
      linarith
    · have hd0 : 0 ≤ residualSumSquares l / totalSumSquares l := div_nonneg hres0 ht.le
      linarith
  · rw [if_neg ht]
    norm_num

/-! ### Claim theorems (first batch) -/

/-- C1: for every input series with at least 2 observations surviving the
finite-log filter and with nonzero variance among the filtered log-prices,
`calculateElasticity` returns a result whose `elasticity` field equals the
ordinary-least-squares slope
`Σ (lnP i - mp) * (lnQ i - mq) / Σ (lnP i - mp)^2`, where `mp` and `mq` are
the arithmetic means of the filtered log-prices and log-quantities. -/
theorem elasticity_eq_ols_slope (l : List SalesDataPoint)
    (h2 : 2 ≤ (logPoints l).length) (hden : specDenominator l ≠ 0) :
    ∃ r, calculateElasticity l = some r ∧
      r.elasticity = specNumerator l / specDenominator l := by
  have hd : denominator l ≠ 0 := by
    rw [denominator_eq_spec]
    exact hden
  refine ⟨resultOf l, ?_, ?_⟩
  · unfold calculateElasticity
    rw [calculateElasticityRun_of_nondegenerate l h2 hd]
  · show elasticity l = specNumerator l / specDenominator l
    unfold elasticity
    rw [numerator_eq_spec, denominator_eq_spec]

/-- C2: `calculateElasticity` returns `none` (never an exception — the
embedding is a total function) exactly on degenerate inputs: fewer than 2
observations, fewer than 2 observations surviving the finite-log filter, or a
zero OLS denominator (zero variance among the filtered log-prices); on every
other input it returns a result. -/
theorem calculateElasticity_none_iff (l : List SalesDataPoint) :
    calculateElasticity l = none ↔
      l.length < 2 ∨ (logPoints l).length < 2 ∨ specDenominator l = 0 := by
  rw [← denominator_eq_spec]
  unfold calculateElasticity calculateElasticityRun
  by_cases a : l.length < 2
  · simp [if_pos a, a]
  · rw [if_neg a]
    by_cases b : (logPoints l).length < 2
    · simp [if_pos b, a, b]
    · rw [if_neg b]
      by_cases c : denominator l = 0
      · simp [if_pos c, a, b, c]
      · simp [if_neg c, a, b, c]

/-- C5: classification is strict: for every non-null result of
`calculateElasticity`, `is_elastic` is `true` exactly when the absolute value
of the elasticity is strictly greater than 1, so elasticity of magnitude
exactly 1 is classified inelastic. -/
theorem is_elastic_iff_abs_gt_one (l : List SalesDataPoint) (r : ElasticityResult)
    (h : calculateElasticity l = some r) :
    r.is_elastic = true ↔ 1 < |r.elasticity| := by
  obtain ⟨-, -, -, hr⟩ := calculateElasticity_some_inv l r h
  rw [hr]
  show isElastic l = true ↔ 1 < |elasticity l|
  unfold isElastic
  simp

/-- C10: under exact real arithmetic, every non-null result of
`calculateElasticity` has `r_squared` in the closed interval `[0, 1]`: the
OLS slope minimizes the residual sum of squares, so the residual sum never
exceeds the total sum, and the zero-total-variance fallback returns 0. -/
theorem r_squared_in_unit_interval (l : List SalesDataPoint) (r : ElasticityResult)
    (h : calculateElasticity l = some r) :
    0 ≤ r.r_squared ∧ r.r_squared ≤ 1 := by
  obtain ⟨-, -, hden, hr⟩ := calculateElasticity_some_inv l r h
  rw [hr]
  exact rSquared_mem_unit l hden

/-- C3: for every non-null result, `current_price`/`current_quantity` come
from the chronologically latest observation of the date-sorted series;
`recommended_price` is a 10% cut when elastic and a 10% raise otherwise; and
`expected_revenue_change` is the constant-elasticity revenue-change formula
evaluated at those values. -/
theorem recommendation_from_latest (l : List SalesDataPoint) (r : ElasticityResult)
    (lastObs : SalesDataPoint) (h : calculateElasticity l = some r)
    (hlast : (sortedData l).getLast? = some lastObs) :
    r.current_price = (lastObs.price : ℝ) ∧
    r.recommended_price =
      (if r.is_elastic then (lastObs.price : ℝ) * 0.9 else (lastObs.price : ℝ) * 1.1) ∧
    r.expected_revenue_change =
      (r.recommended_price *
          ((lastObs.quantity_sold : ℝ) *
            (r.recommended_price / (lastObs.price : ℝ)) ^ r.elasticity)
        - (lastObs.price : ℝ) * (lastObs.quantity_sold : ℝ)) /
        ((lastObs.price : ℝ) * (lastObs.quantity_sold : ℝ)) * 100 := by
  obtain ⟨-, -, -, hr⟩ := calculateElasticity_some_inv l r h
  have hcp : currentPrice l = lastObs.price := by
    unfold currentPrice
    rw [List.getLastD_eq_getLast?, hlast]
    rfl
  have hcq : currentQuantity l = lastObs.quantity_sold := by
    unfold currentQuantity
    rw [List.getLastD_eq_getLast?, hlast]
    rfl
  subst hr
  simp only [resultOf]
  refine ⟨by rw [hcp], ?_, ?_⟩
  · unfold recommendedPrice
    rw [hcp]
  · unfold expectedRevenueChange predictedRevenue predictedQuantity currentRevenue
    rw [hcp, hcq]

/-- C8 (amended): the `product_name` and `category` of a non-null result are
those of the head of the date-sorted series (the earliest-dated observation):
the in-place sort has already reordered the caller's array when
`dataPoints[0]` is read at the return site. -/
theorem product_fields_from_sorted_head (l : List SalesDataPoint) (r : ElasticityResult)
    (hd : SalesDataPoint) (h : calculateElasticity l = some r)
    (hhd : (sortedData l).head? = some hd) :
    r.product_name = hd.product_name ∧ r.category = hd.category := by
  obtain ⟨-, -, -, hr⟩ := calculateElasticity_some_inv l r h
  subst hr
  have hheadI : (sortedData l).headI = hd := by
    cases hs : sortedData l with
    | nil => rw [hs] at hhd; simp at hhd
    | cons x xs =>
      rw [hs] at hhd
      simp only [List.head?_cons, Option.some.injEq] at hhd
      exact hhd
  simp only [resultOf]
  rw [hheadI]
  exact ⟨rfl, rfl⟩

/-- C9 (amended): `calculateElasticity` sorts the caller's array in place, so
after the call the array is a permutation of the input (no observation is
added, removed, or modified); an input that is already sorted ascending by
date — in particular any input of length < 2 — is left exactly as supplied,
but an unsorted input is reordered. -/
theorem calculateElasticity_mutation_spec (l : List SalesDataPoint) :
    (calculateElasticityArrayAfter l).Perm l ∧
      (List.Pairwise (fun a b => a.sale_date ≤ b.sale_date) l →
        calculateElasticityArrayAfter l = l) := by
  rw [calculateElasticityArrayAfter_eq]
  by_cases h : l.length < 2
  · rw [if_pos h]
    exact ⟨List.Perm.refl l, fun _ => rfl⟩
  · rw [if_neg h]
    exact ⟨sortByDate_perm l, fun hp => sortByDate_of_pairwise l hp⟩

/-- C4: `optimizePrice` always returns `optimal_price = currentPrice` times
the fixed offset selected by the target and by whether `1 < |elasticity|`
(0.85 or 1.15 for revenue, 0.9 or 1.2 for profit), and under the revenue
target the expected change is the constant-elasticity revenue-change
formula. -/
theorem optimizePrice_revenue_eq (e p q c : ℝ) :
    optimizePrice e p q c OptimizationTarget.revenue =
      { optimal_price := p * (if 1 < |e| then (0.85 : ℝ) else 1.15)
        expected_change :=
          ((p * (if 1 < |e| then (0.85 : ℝ) else 1.15)) *
              (q * ((p * (if 1 < |e| then (0.85 : ℝ) else 1.15)) / p) ^ e) - p * q) /
            (p * q) * 100 } := by
  unfold optimizePrice
  rw [if_pos rfl]
  by_cases he : 1 < |e|
  · rw [if_pos he, if_pos he]
  · rw [if_neg he, if_neg he]

theorem optimizePrice_profit_eq (e p q c : ℝ) :
    optimizePrice e p q c OptimizationTarget.profit =
      { optimal_price := p * (if 1 < |e| then (0.9 : ℝ) else 1.2)
        expected_change :=
          if 0 < (p - c) * q then
            ((p * (if 1 < |e| then (0.9 : ℝ) else 1.2) - c) *
                (q * ((p * (if 1 < |e| then (0.9 : ℝ) else 1.2)) / p) ^ e) -
              (p - c) * q) / ((p - c) * q) * 100
          else 0 } := by
  unfold optimizePrice
  rw [if_neg (by simp : ¬(OptimizationTarget.profit = OptimizationTarget.revenue))]

theorem optimizePrice_offsets (e p q c : ℝ) (t : OptimizationTarget) :
    (optimizePrice e p q c t).optimal_price =
      p * (if t = OptimizationTarget.revenue then (if 1 < |e| then (0.85 : ℝ) else 1.15)
           else (if 1 < |e| then (0.9 : ℝ) else 1.2)) ∧
    (t = OptimizationTarget.revenue →
      (optimizePrice e p q c t).expected_change =
        ((p * (if 1 < |e| then (0.85 : ℝ) else 1.15)) *
            (q * ((p * (if 1 < |e| then (0.85 : ℝ) else 1.15)) / p) ^ e) - p * q) /
          (p * q) * 100) := by
  cases t with
  | revenue =>
    rw [optimizePrice_revenue_eq]
    exact ⟨by rw [if_pos rfl], fun _ => rfl⟩
  | profit =>
    rw [optimizePrice_profit_eq]
    refine ⟨by rw [if_neg (by simp : ¬(OptimizationTarget.profit = OptimizationTarget.revenue))], ?_⟩
    intro hcon
    exact absurd hcon (by simp)

/-- C6: under the profit target, a baseline profit that is zero or negative
yields `expected_change = 0` regardless of the predicted profit; a positive
baseline yields the relative-profit-change formula. -/
theorem optimizePrice_profit_baseline (e p q c : ℝ) :
    ((p - c) * q ≤ 0 →
      (optimizePrice e p q c OptimizationTarget.profit).expected_change = 0) ∧
    (0 < (p - c) * q →
      (optimizePrice e p q c OptimizationTarget.profit).expected_change =
        ((p * (if 1 < |e| then (0.9 : ℝ) else 1.2) - c) *
            (q * ((p * (if 1 < |e| then (0.9 : ℝ) else 1.2)) / p) ^ e) -
          (p - c) * q) / ((p - c) * q) * 100) := by
  rw [optimizePrice_profit_eq]
  constructor
  · intro hle
    exact if_neg (not_lt.mpr hle)
  · intro hpos
    exact if_pos hpos

/-! ### Closed-form evaluation on a two-element regression set -/

theorem pair_meanLogPrice (l : List SalesDataPoint) (p1 p2 : LogPoint)
    (h : logPoints l = [p1, p2]) :
    meanLogPrice l = (p1.logPrice + p2.logPrice) / 2 := by
  unfold meanLogPrice
  rw [h]
  simp only [List.foldl_cons, List.foldl_nil, List.length_cons, List.length_nil]
  norm_num

theorem pair_meanLogQuantity (l : List SalesDataPoint) (p1 p2 : LogPoint)
    (h : logPoints l = [p1, p2]) :
    meanLogQuantity l = (p1.logQuantity + p2.logQuantity) / 2 := by
  unfold meanLogQuantity
  rw [h]
  simp only [List.foldl_cons, List.foldl_nil, List.length_cons, List.length_nil]
  norm_num

theorem pair_numerator (l : List SalesDataPoint) (p1 p2 : LogPoint)
    (h : logPoints l = [p1, p2]) :
    numerator l = (p1.logPrice - p2.logPrice) * (p1.logQuantity - p2.logQuantity) / 2 := by
  unfold numerator
  rw [h, pair_meanLogPrice l p1 p2 h, pair_meanLogQuantity l p1 p2 h]
  simp only [List.foldl_cons, List.foldl_nil]
  ring

theorem pair_denominator (l : List SalesDataPoint) (p1 p2 : LogPoint)
    (h : logPoints l = [p1, p2]) :
    denominator l = (p1.logPrice - p2.logPrice) ^ 2 / 2 := by
  unfold denominator
  rw [h, pair_meanLogPrice l p1 p2 h]
  simp only [List.foldl_cons, List.foldl_nil]
  ring

theorem pair_elasticity (l : List SalesDataPoint) (p1 p2 : LogPoint)
    (h : logPoints l = [p1, p2]) (hx : p1.logPrice ≠ p2.logPrice) :
    elasticity l = (p1.logQuantity - p2.logQuantity) / (p1.logPrice - p2.logPrice) := by
  have hs : p1.logPrice - p2.logPrice ≠ 0 := sub_ne_zero.mpr hx
  unfold elasticity
  rw [pair_numerator l p1 p2 h, pair_denominator l p1 p2 h]
  field_simp
  ring

theorem pair_totalSumSquares (l : List SalesDataPoint) (p1 p2 : LogPoint)
    (h : logPoints l = [p1, p2]) :
    totalSumSquares l = (p1.logQuantity - p2.logQuantity) ^ 2 / 2 := by
  unfold totalSumSquares
  rw [h, pair_meanLogQuantity l p1 p2 h]
  simp only [List.foldl_cons, List.foldl_nil]
  ring

theorem pair_residualSumSquares (l : List SalesDataPoint) (p1 p2 : LogPoint)
    (h : logPoints l = [p1, p2]) (hx : p1.logPrice ≠ p2.logPrice) :
    residualSumSquares l = 0 := by
  have hs : p1.logPrice - p2.logPrice ≠ 0 := sub_ne_zero.mpr hx
  rw [residualSumSquares_eq_sum, h]
  simp only [List.map_cons, List.map_nil, List.sum_cons, List.sum_nil]
  rw [pair_meanLogPrice l p1 p2 h, pair_meanLogQuantity l p1 p2 h,
    pair_elasticity l p1 p2 h hx]
  field_simp
  ring

theorem pair_rSquared (l : List SalesDataPoint) (p1 p2 : LogPoint)
    (h : logPoints l = [p1, p2]) (hx : p1.logPrice ≠ p2.logPrice)
    (hy : p1.logQuantity ≠ p2.logQuantity) :
    rSquared l = 1 := by
  have htss : 0 < totalSumSquares l := by
    rw [pair_totalSumSquares l p1 p2 h]
    have hs : p1.logQuantity - p2.logQuantity ≠ 0 := sub_ne_zero.mpr hy
    have hsq : 0 < (p1.logQuantity - p2.logQuantity) ^ 2 :=
      lt_of_le_of_ne (sq_nonneg _) (Ne.symm (pow_ne_zero 2 hs))
    linarith
  unfold rSquared
  rw [if_pos htss, pair_residualSumSquares l p1 p2 h hx]
  simp

theorem pair_denominator_ne_zero (l : List SalesDataPoint) (p1 p2 : LogPoint)
    (h : logPoints l = [p1, p2]) (hx : p1.logPrice ≠ p2.logPrice) :
    denominator l ≠ 0 := by
  rw [pair_denominator l p1 p2 h]
  have hs : p1.logPrice - p2.logPrice ≠ 0 := sub_ne_zero.mpr hx
  exact div_ne_zero (pow_ne_zero 2 hs) two_ne_zero

theorem pair_some (l : List SalesDataPoint) (p1 p2 : LogPoint)
    (h : logPoints l = [p1, p2]) (hx : p1.logPrice ≠ p2.logPrice) :
    calculateElasticity l = some (resultOf l) := by
  have h2 : 2 ≤ (logPoints l).length := by
    rw [h]
    simp
  unfold calculateElasticity
  rw [calculateElasticityRun_of_nondegenerate l h2 (pair_denominator_ne_zero l p1 p2 h hx)]

/-! ### Concrete example: two observations with exact slope -2 -/

def exA : List SalesDataPoint :=
  [{ price := 50, quantity_sold := 200, product_name := "A", category := "Cat", sale_date := 0 },
   { price := 100, quantity_sold := 50, product_name := "A", category := "Cat", sale_date := 1 }]

noncomputable def pA1 : LogPoint :=
  { logPrice := Real.log 50, logQuantity := Real.log 200, price := 50, quantity := 200 }

noncomputable def pA2 : LogPoint :=
  { logPrice := Real.log 100, logQuantity := Real.log 50, price := 100, quantity := 50 }

theorem log50_lt_log100 : Real.log 50 < Real.log 100 :=
  Real.log_lt_log (by norm_num) (by norm_num)

theorem log50_lt_log200 : Real.log 50 < Real.log 200 :=
  Real.log_lt_log (by norm_num) (by norm_num)

theorem log100_eq : Real.log 100 = Real.log 50 + Real.log 2 := by
  rw [show (100 : ℝ) = 50 * 2 by norm_num,
    Real.log_mul (by norm_num) (by norm_num)]

theorem log200_eq : Real.log 200 = Real.log 50 + 2 * Real.log 2 := by
  rw [show (200 : ℝ) = 50 * 2 ^ 2 by norm_num,
    Real.log_mul (by norm_num) (by norm_num), Real.log_pow]
  push_cast
  ring

theorem log2_ne_zero : Real.log 2 ≠ 0 := ne_of_gt (Real.log_pos (by norm_num))

theorem sortedData_exA : sortedData exA = exA :=
  sortByDate_of_pairwise exA (by decide)

theorem logPoints_exA : logPoints exA = [pA1, pA2] := by
  unfold logPoints pA1 pA2
  rw [sortedData_exA]
  simp [exA, List.filter]

theorem pA_logPrice_ne : pA1.logPrice ≠ pA2.logPrice := by
  show Real.log 50 ≠ Real.log 100
  exact ne_of_lt log50_lt_log100

theorem pA_logQuantity_ne : pA1.logQuantity ≠ pA2.logQuantity := by
  show Real.log 200 ≠ Real.log 50
  exact log50_lt_log200.ne'

theorem elasticity_exA : elasticity exA = -2 := by
  rw [pair_elasticity exA pA1 pA2 logPoints_exA pA_logPrice_ne]
  show (Real.log 200 - Real.log 50) / (Real.log 50 - Real.log 100) = -2
  rw [log200_eq, log100_eq, div_eq_iff (by intro hc; apply log2_ne_zero; linarith)]
  ring

theorem rSquared_exA : rSquared exA = 1 :=
  pair_rSquared exA pA1 pA2 logPoints_exA pA_logPrice_ne pA_logQuantity_ne

theorem isElastic_exA : isElastic exA = true := by
  unfold isElastic
  rw [elasticity_exA, decide_eq_true_eq]
  rw [abs_of_nonpos (by norm_num)]
  norm_num

theorem currentPrice_exA : currentPrice exA = 100 := by
  unfold currentPrice
  rw [sortedData_exA]
  rfl

theorem currentQuantity_exA : currentQuantity exA = 50 := by
  unfold currentQuantity
  rw [sortedData_exA]
  rfl

theorem recommendedPrice_exA : recommendedPrice exA = 90 := by
  unfold recommendedPrice
  rw [isElastic_exA, if_pos rfl, currentPrice_exA]
  norm_num

theorem expectedRevenueChange_exA : expectedRevenueChange exA = 100 / 9 := by
  unfold expectedRevenueChange predictedRevenue predictedQuantity currentRevenue
  rw [recommendedPrice_exA, currentPrice_exA, currentQuantity_exA, elasticity_exA]
  have hpow : ((90 : ℝ) / ((100 : ℚ) : ℝ)) ^ ((-2 : ℝ)) = 100 / 81 := by
    rw [show ((100 : ℚ) : ℝ) = 100 by norm_num,
      show (-2 : ℝ) = -((2 : ℕ) : ℝ) by norm_num,
      Real.rpow_neg (by norm_num), Real.rpow_natCast]
    norm_num
  rw [hpow]
  norm_num

theorem exA_eval : calculateElasticity exA = some
    { elasticity := -2, r_squared := 1, is_elastic := true, product_name := "A",
      category := "Cat", current_price := 100, recommended_price := 90,
      expected_revenue_change := 100 / 9 } := by
  rw [pair_some exA pA1 pA2 logPoints_exA pA_logPrice_ne]
  congr 1
  unfold resultOf
  simp only [ElasticityResult.mk.injEq]
  refine ⟨elasticity_exA, rSquared_exA, isElastic_exA, ?_, ?_, ?_,
    recommendedPrice_exA, expectedRevenueChange_exA⟩
  · rw [sortedData_exA]
    rfl
  · rw [sortedData_exA]
    rfl
  · rw [currentPrice_exA]
    norm_num

/-! ### Concrete example: two observations with exact slope -1 -/

def exB : List SalesDataPoint :=
  [{ price := 50, quantity_sold := 100, product_name := "A", category := "Cat", sale_date := 0 },
   { price := 100, quantity_sold := 50, product_name := "A", category := "Cat", sale_date := 1 }]

noncomputable def pB1 : LogPoint :=
  { logPrice := Real.log 50, logQuantity := Real.log 100, price := 50, quantity := 100 }

noncomputable def pB2 : LogPoint :=
  { logPrice := Real.log 100, logQuantity := Real.log 50, price := 100, quantity := 50 }

theorem sortedData_exB : sortedData exB = exB :=
  sortByDate_of_pairwise exB (by decide)

theorem logPoints_exB : logPoints exB = [pB1, pB2] := by
  unfold logPoints pB1 pB2
  rw [sortedData_exB]
  simp [exB, List.filter]

theorem pB_logPrice_ne : pB1.logPrice ≠ pB2.logPrice := by
  show Real.log 50 ≠ Real.log 100
  exact ne_of_lt log50_lt_log100

theorem pB_logQuantity_ne : pB1.logQuantity ≠ pB2.logQuantity := by
  show Real.log 100 ≠ Real.log 50
  exact log50_lt_log100.ne'

theorem elasticity_exB : elasticity exB = -1 := by
  rw [pair_elasticity exB pB1 pB2 logPoints_exB pB_logPrice_ne]
  show (Real.log 100 - Real.log 50) / (Real.log 50 - Real.log 100) = -1
  rw [log100_eq, div_eq_iff (by intro hc; apply log2_ne_zero; linarith)]
  ring

theorem rSquared_exB : rSquared exB = 1 :=
  pair_rSquared exB pB1 pB2 logPoints_exB pB_logPrice_ne pB_logQuantity_ne

theorem isElastic_exB : isElastic exB = false := by
  unfold isElastic
  rw [elasticity_exB]
  rw [decide_eq_false_iff_not, abs_of_nonpos (by norm_num)]
  norm_num

theorem currentPrice_exB : currentPrice exB = 100 := by
  unfold currentPrice
  rw [sortedData_exB]
  rfl

theorem currentQuantity_exB : currentQuantity exB = 50 := by
  unfold currentQuantity
  rw [sortedData_exB]
  rfl

theorem recommendedPrice_exB : recommendedPrice exB = 110 := by
  unfold recommendedPrice
  rw [isElastic_exB, if_neg (by simp), currentPrice_exB]
  norm_num

theorem expectedRevenueChange_exB : expectedRevenueChange exB = 0 := by
  unfold expectedRevenueChange predictedRevenue predictedQuantity currentRevenue
  rw [recommendedPrice_exB, currentPrice_exB, currentQuantity_exB, elasticity_exB]
  have hpow : ((110 : ℝ) / ((100 : ℚ) : ℝ)) ^ ((-1 : ℝ)) = 10 / 11 := by
    rw [show ((100 : ℚ) : ℝ) = 100 by norm_num,
      show (-1 : ℝ) = -((1 : ℕ) : ℝ) by norm_num,
      Real.rpow_neg (by norm_num), Real.rpow_natCast]
    norm_num
  rw [hpow]
  norm_num

theorem exB_eval : calculateElasticity exB = some
    { elasticity := -1, r_squared := 1, is_elastic := false, product_name := "A",
      category := "Cat", current_price := 100, recommended_price := 110,
      expected_revenue_change := 0 } := by
  rw [pair_some exB pB1 pB2 logPoints_exB pB_logPrice_ne]
  congr 1
  unfold resultOf
  simp only [ElasticityResult.mk.injEq]
  refine ⟨elasticity_exB, rSquared_exB, isElastic_exB, ?_, ?_, ?_,
    recommendedPrice_exB, expectedRevenueChange_exB⟩
  · rw [sortedData_exB]
    rfl
  · rw [sortedData_exB]
    rfl
  · rw [currentPrice_exB]
    norm_num

/-! ### Concrete example: trailing observation with zero quantity -/

def exC : List SalesDataPoint :=
  [{ price := 50, quantity_sold := 100, product_name := "A", category := "Cat", sale_date := 0 },
   { price := 100, quantity_sold := 50, product_name := "A", category := "Cat", sale_date := 1 },
   { price := 100, quantity_sold := 0, product_name := "A", category := "Cat", sale_date := 2 }]

theorem sortedData_exC : sortedData exC = exC :=
  sortByDate_of_pairwise exC (by decide)

theorem logPoints_exC : logPoints exC = [pB1, pB2] := by
  unfold logPoints pB1 pB2
  rw [sortedData_exC]
  simp [exC, List.filter]

theorem currentRevenue_exC : currentRevenue exC = 0 := by
  unfold currentRevenue currentPrice currentQuantity
  rw [sortedData_exC]
  norm_num [exC]

/-! ### Concrete example: input supplied out of date order -/

def exD : List SalesDataPoint :=
  [{ price := 100, quantity_sold := 50, product_name := "B", category := "CatB", sale_date := 1 },
   { price := 50, quantity_sold := 200, product_name := "A", category := "CatA", sale_date := 0 }]

theorem sortedData_exD : sortedData exD =
    [{ price := 50, quantity_sold := 200, product_name := "A", category := "CatA", sale_date := 0 },
     { price := 100, quantity_sold := 50, product_name := "B", category := "CatB", sale_date := 1 }] := by
  decide

theorem logPoints_exD : logPoints exD = [pA1, pA2] := by
  unfold logPoints pA1 pA2
  rw [sortedData_exD]
  simp [List.filter]

/-- C7: the revenue-change computation is not guarded against a zero baseline
revenue: `exC` has two finite-log observations with distinct prices (so the
regression succeeds), its chronologically latest observation has quantity 0,
and `calculateElasticity` still returns a non-null result whose
`expected_revenue_change` is computed by dividing by the zero baseline
revenue `current_price * current_quantity = 0`. -/
theorem revenue_change_unguarded_zero_baseline :
    2 ≤ (logPoints exC).length ∧ denominator exC ≠ 0 ∧
    ((sortedData exC).getLast?).map (fun p => p.quantity_sold) = some 0 ∧
    currentRevenue exC = 0 ∧
    (calculateElasticity exC).isSome = true := by
  refine ⟨?_, pair_denominator_ne_zero exC pB1 pB2 logPoints_exC pB_logPrice_ne, ?_,
    currentRevenue_exC, ?_⟩
  · rw [logPoints_exC]
    simp
  · rw [sortedData_exC]
    rfl
  · rw [pair_some exC pB1 pB2 logPoints_exC pB_logPrice_ne]
    rfl

/-- C8 counterexample: on the out-of-order input `exD` the result's
`product_name`/`category` are those of the earliest-dated observation, not of
the first observation as supplied by the caller (the in-place sort reorders
the array before `dataPoints[0]` is read). -/
theorem product_fields_not_from_original_first :
    ∃ r, calculateElasticity exD = some r ∧
      exD.headI.product_name = "B" ∧ exD.headI.category = "CatB" ∧
      r.product_name ≠ exD.headI.product_name ∧ r.category ≠ exD.headI.category := by
  refine ⟨resultOf exD, pair_some exD pA1 pA2 logPoints_exD pA_logPrice_ne, rfl, rfl, ?_, ?_⟩
  · show ((sortedData exD).headI).product_name ≠ exD.headI.product_name
    rw [sortedData_exD]
    decide
  · show ((sortedData exD).headI).category ≠ exD.headI.category
    rw [sortedData_exD]
    decide

/-- C9 counterexample: the call mutates the caller's array: on the
out-of-date-order input `exD` the array contents after the call differ from
the input. -/
theorem caller_array_mutated : calculateElasticityArrayAfter exD ≠ exD := by
  rw [calculateElasticityArrayAfter_eq, if_neg (by decide), sortedData_exD]
  decide

/-- Witness for C1 at the concrete series `exA`. -/
theorem elasticity_eq_ols_slope_witness :
    2 ≤ (logPoints exA).length ∧ specDenominator exA ≠ 0 ∧
    ∃ r, calculateElasticity exA = some r ∧
      r.elasticity = specNumerator exA / specDenominator exA := by
  have h2 : 2 ≤ (logPoints exA).length := by
    rw [logPoints_exA]
    simp
  have hden : specDenominator exA ≠ 0 := by
    rw [← denominator_eq_spec]
    exact pair_denominator_ne_zero exA pA1 pA2 logPoints_exA pA_logPrice_ne
  exact ⟨h2, hden, elasticity_eq_ols_slope exA h2 hden⟩

/-- Witness for C3 at the concrete series `exA`: elasticity -2, latest
observation (price 100, quantity 50), elastic branch, recommended price 90,
expected revenue change exactly 100/9 percent. -/
theorem recommendation_from_latest_witness :
    ∃ r, calculateElasticity exA = some r ∧ r.current_price = 100 ∧
      r.recommended_price = (if r.is_elastic then r.current_price * 0.9
                             else r.current_price * 1.1) ∧
      r.recommended_price = 90 ∧ r.expected_revenue_change = 100 / 9 ∧
      |r.expected_revenue_change - 100 / 9| ≤ 1e-6 * (100 / 9) := by
  have hlast : (sortedData exA).getLast? = some
      { price := 100, quantity_sold := 50, product_name := "A", category := "Cat",
        sale_date := 1 } := by
    rw [sortedData_exA]
    rfl
  obtain ⟨h1, h2, h3⟩ := recommendation_from_latest exA _ _ exA_eval hlast
  refine ⟨_, exA_eval, ?_, ?_, rfl, rfl, ?_⟩
  · rw [h1]
    norm_num
  · rw [h2, ← h1]
  · norm_num

/-- Witness for C4 at the concrete call from the specification:
`optimize(-0.5, 20, 100, revenue)` yields optimal price 23 and expected
change `(1.15 ^ 0.5 - 1) * 100` percent. -/
theorem optimizePrice_offsets_witness :
    (optimizePrice (-0.5) 20 100 0 OptimizationTarget.revenue).optimal_price = 23 ∧
    (optimizePrice (-0.5) 20 100 0 OptimizationTarget.revenue).expected_change =
      ((1.15 : ℝ) ^ ((0.5 : ℝ)) - 1) * 100 := by
  obtain ⟨h1, h2⟩ := optimizePrice_offsets (-0.5) 20 100 0 OptimizationTarget.revenue
  have habs : ¬ (1 : ℝ) < |(-0.5 : ℝ)| := by
    rw [abs_of_nonpos (by norm_num)]
    norm_num
  constructor
  · rw [h1, if_pos rfl, if_neg habs]
    norm_num
  · rw [h2 rfl, if_neg habs]
    have hA : (0 : ℝ) < (1.15 : ℝ) ^ ((0.5 : ℝ)) := Real.rpow_pos_of_pos (by norm_num) _
    have hAne : (1.15 : ℝ) ^ ((0.5 : ℝ)) ≠ 0 := ne_of_gt hA
    have hA2 : (1.15 : ℝ) ^ ((0.5 : ℝ)) * (1.15 : ℝ) ^ ((0.5 : ℝ)) = 1.15 := by
      rw [← Real.rpow_add (by norm_num : (0 : ℝ) < 1.15)]
      norm_num
    have hinv : ((20 : ℝ) * 1.15 / 20) ^ ((-0.5 : ℝ)) = ((1.15 : ℝ) ^ ((0.5 : ℝ)))⁻¹ := by
      rw [show (20 : ℝ) * 1.15 / 20 = 1.15 by norm_num,
        show (-0.5 : ℝ) = -(0.5 : ℝ) by norm_num,
        Real.rpow_neg (by norm_num)]
    have hAinv : ((1.15 : ℝ) ^ ((0.5 : ℝ)))⁻¹ = (1.15 : ℝ) ^ ((0.5 : ℝ)) / 1.15 := by
      rw [eq_div_iff (by norm_num : (1.15 : ℝ) ≠ 0)]
      nth_rewrite 2 [← hA2]
      rw [← mul_assoc, inv_mul_cancel₀ hAne, one_mul]
    rw [hinv, hAinv]
    field_simp
    ring

/-- Witness for C5 at the boundary: the series `exB` has elasticity exactly
-1 and is classified inelastic. -/
theorem is_elastic_boundary_witness :
    ∃ r, calculateElasticity exB = some r ∧ |r.elasticity| = 1 ∧ r.is_elastic = false := by
  refine ⟨_, exB_eval, ?_, ?_⟩
  · show |(-1 : ℝ)| = 1
    rw [abs_of_nonpos (by norm_num)]
    norm_num
  · have h := is_elastic_iff_abs_gt_one exB _ exB_eval
    have hnot : ¬ (1 : ℝ) < |(-1 : ℝ)| := by
      rw [abs_of_nonpos (by norm_num)]
      norm_num
    exact Bool.eq_false_iff.mpr (fun htrue => hnot (h.mp htrue))

/-- Witness for C6: with cost 25 above price 20 the baseline profit is
negative and the expected change is exactly 0. -/
theorem optimizePrice_profit_baseline_witness :
    ((20 : ℝ) - 25) * 100 ≤ 0 ∧
    (optimizePrice (-0.5) 20 100 25 OptimizationTarget.profit).expected_change = 0 :=
  ⟨by norm_num, (optimizePrice_profit_baseline (-0.5) 20 100 25).1 (by norm_num)⟩

/-- Witness for the amended C8 at the concrete input `exD`. -/
theorem product_fields_from_sorted_head_witness :
    calculateElasticity exD = some (resultOf exD) ∧
    (sortedData exD).head? = some
      { price := 50, quantity_sold := 200, product_name := "A", category := "CatA",
        sale_date := 0 } ∧
    (resultOf exD).product_name = "A" ∧ (resultOf exD).category = "CatA" := by
  have hsome := pair_some exD pA1 pA2 logPoints_exD pA_logPrice_ne
  have hhd : (sortedData exD).head? = some
      { price := 50, quantity_sold := 200, product_name := "A", category := "CatA",
        sale_date := 0 } := by
    rw [sortedData_exD]
    rfl
  obtain ⟨h1, h2⟩ := product_fields_from_sorted_head exD (resultOf exD) _ hsome hhd
  exact ⟨hsome, hhd, h1, h2⟩

/-- Witness for the amended C9: an already date-sorted input is returned
exactly as supplied. -/
theorem mutation_spec_witness :
    List.Pairwise (fun a b => a.sale_date ≤ b.sale_date) exA ∧
    calculateElasticityArrayAfter exA = exA ∧
    (calculateElasticityArrayAfter exA).Perm exA :=
  ⟨by decide, (calculateElasticity_mutation_spec exA).2 (by decide),
    (calculateElasticity_mutation_spec exA).1⟩

/-- Witness for C10 at the concrete series `exA` (perfect fit, r-squared 1). -/
theorem r_squared_unit_witness :
    ∃ r, calculateElasticity exA = some r ∧ 0 ≤ r.r_squared ∧ r.r_squared ≤ 1 :=
  ⟨_, exA_eval, r_squared_in_unit_interval exA _ exA_eval⟩
